import Mathlib

/-!
Shallow embedding of `iDebugConsole.js` (Debugger, LogLocation, Profiler)
and verification of its specification claims.

JavaScript values that flow through the relevant code paths are modelled by
`JSVal` (undefined, booleans, strings); JS truthiness is `truthy`.  Machine
times are modelled as rationals; the `currentTime()` clock is an explicit
list of readings consumed one per call.  Object identity (references) is
modelled by natural-number refs with an explicit heap for the `_debug`
flags, since the Debugger attaches fields to caller-supplied objects.
-/

/-- A JavaScript value as it appears in the modelled code paths:
`undefined`, a boolean, or a string. -/
inductive JSVal where
  | undef : JSVal
  | bool : Bool → JSVal
  | str : String → JSVal
deriving DecidableEq, Repr

/-- JS truthiness for the modelled values: `undefined` and `false` and the
empty string are falsy, everything else is truthy. -/
def truthy : JSVal → Bool
  | .undef => false
  | .bool b => b
  | .str s => s ≠ ""

/-- JS `a || b` on optional strings, where `none` is `undefined` and the
empty string is falsy. -/
def jsOrS : Option String → Option String → Option String
  | some s, y => if s = "" then y else some s
  | none, y => y

/-- JS `a || d` with a string default: the left operand wins when truthy
(defined and nonempty), otherwise the default is used. -/
def jsOrStr (a : Option String) (d : String) : String :=
  match a with
  | some s => if s = "" then d else s
  | none => d

/-- JS string coercion for property keys (`obj[k]` stringifies `k`). -/
def jsToString : JSVal → String
  | .undef => "undefined"
  | .bool b => if b then "true" else "false"
  | .str s => s

/-- JS `Array.prototype.slice(k)` with one (possibly negative) argument. -/
def jsSlice {α : Type} (l : List α) (k : Int) : List α :=
  if 0 ≤ k then l.drop k.toNat
  else l.drop (l.length - (-k).toNat)

/-- Worker of `splitOnChar`: `acc` holds the current field reversed. -/
def splitOnCharAux (c : Char) : List Char → List Char → List String
  | [], acc => [String.mk acc.reverse]
  | x :: xs, acc =>
    if x = c then String.mk acc.reverse :: splitOnCharAux c xs []
    else splitOnCharAux c xs (x :: acc)

/-- JS `String.prototype.split(c)` with a one-character separator (the only
form the source uses); the empty string splits to `[""]`. -/
def splitOnChar (c : Char) (s : String) : List String :=
  splitOnCharAux c s.data []

/-- JS `s.indexOf(pre) == 0`, i.e. `s` starts with `pre`. -/
def startsWith0 (s pre : String) : Bool :=
  pre.data.isPrefixOf s.data

namespace Debugger

/-- The behaviour of a synthesized `obj.debug` entry (or per-level sub-entry):
the closure the `debug` factory returned at registration time.  `noop` is the
`function () {}` branch; the other two are the bound view / console emitters,
which emit unconditionally when invoked. -/
inductive DebugFn where
  | noop : DebugFn
  | viewBound : String → DebugFn
  | consoleBound : String → DebugFn
deriving DecidableEq, Repr

/-- Whether invoking a synthesized entry produces observable output. -/
def emits : DebugFn → Bool
  | .noop => false
  | _ => true

/-- State of the Debugger module: the closure-level `globalDebug` flag and
`view` sink, one facade's `_objects` map (key to object reference), the heap
of per-object `_debug` flags, and the heap of synthesized debug entries
(one function per console level, `none` meaning the bare `obj.debug`). -/
structure State where
  globalDebug : JSVal
  view : Bool
  objects : List (String × Nat)
  debugFlags : Nat → Bool
  debugEntries : Nat → Option String → DebugFn

/-- Source `global(state)`: a truthy argument assigns `globalDebug` and
returns `undefined`; otherwise the current flag is returned unchanged.
Result: the new `globalDebug` value and the returned value (`none` models
the implicit `undefined` return of the setter branch). -/
def global (state : JSVal) (globalDebug : JSVal) : JSVal × Option JSVal :=
  if truthy state then (state, none)
  else (globalDebug, some globalDebug)

/-- Source `state()`: maps every registered key to `"on"` or `"off"`
according to its object's `_debug` flag. -/
def stateFn (st : State) : List (String × String) :=
  st.objects.map (fun kv => (kv.1, if st.debugFlags kv.2 then "on" else "off"))

/-- Write one object's `_debug` flag in the heap. -/
def writeFlag (h : Nat → Bool) (r : Nat) (b : Bool) : Nat → Bool :=
  fun r' => if r' = r then b else h r'

/-- Source `setState(state, key)`: with a truthy `key`, assigns
`this._objects[key]._debug = state`, which throws a `TypeError` when the key
is not registered (property access on `undefined`); with a falsy `key`
(absent or the empty string) assigns `_debug = state` on every registered
object.  Returns the updated state together with the `state()` snapshot. -/
def setState (st : State) (state : Bool) (key : Option String) :
    Except String (State × List (String × String)) :=
  if truthy (match key with | some k => .str k | none => .undef) then
    match st.objects.lookup (key.getD "") with
    | none => .error "TypeError: cannot set _debug of undefined"
    | some r =>
      let st' := { st with debugFlags := writeFlag st.debugFlags r state }
      .ok (st', stateFn st')
  else
    let st' := { st with
      debugFlags := st.objects.foldl (fun h kv => writeFlag h kv.2 state) st.debugFlags }
    .ok (st', stateFn st')

/-- Source `off(key)`: `setState(false, key)`. -/
def off (st : State) (key : Option String) :
    Except String (State × List (String × String)) :=
  setState st false key

/-- Source `on(key)`: `setState(true, key)`.  (Named `onFn` because `on` is
reserved in Lean.) -/
def onFn (st : State) (key : Option String) :
    Except String (State × List (String × String)) :=
  setState st true key

/-- Source `debug(level)` factory: evaluated when a debug entry is
synthesized.  If `!globalDebug || !this._debug` it returns the no-op
closure; otherwise the view emitter when the view is initialized, else the
bound console function at `level` (defaulting to `"log"`). -/
def debug (globalDebug : JSVal) (objDebug : Bool) (view : Bool)
    (level : Option String) : DebugFn :=
  let lv := jsOrStr level "log"
  if ¬ truthy globalDebug ∨ ¬ objDebug then .noop
  else if view then .viewBound lv
  else .consoleBound lv

/-- Source `init(state)`: sets every registered object's `_debug` to
`state` via `setState`, then synthesizes `obj.debug` and one sub-entry per
console level by invoking the `debug` factory once per object at the
current flags. -/
def init (st : State) (state : Bool) : State :=
  match setState st state none with
  | .error _ => st
  | .ok (st1, _) =>
    { st1 with
      debugEntries := st1.objects.foldl
        (fun ents kv => fun r lv =>
          if r = kv.2 then debug st1.globalDebug (st1.debugFlags kv.2) st1.view lv
          else ents r lv)
        st1.debugEntries }

end Debugger

/-- JS `String.prototype.replace` with a one-character pattern: replaces
only the first occurrence. -/
def replaceFirst (s : String) (pat : Char) (rep : String) : String :=
  match splitOnChar pat s with
  | [] => s
  | [_] => s
  | x :: rest => x ++ rep ++ String.intercalate (String.mk [pat]) rest

namespace LogLocation

/-- The platform `Error` object as consulted by `LogLocation`: its optional
`stack` string and the non-standard `url` / `line` / `lineNumber` / `column`
fields, each `none` when the runtime does not provide it. -/
structure ErrObj where
  stack : Option String
  url : Option String
  line : Option String
  lineNumber : Option String
  column : Option String
deriving Repr

/-- An `Error` carrying no location information at all, as produced by a
platform whose stack-trace mechanism yields an empty trace. -/
def emptyErr : ErrObj :=
  { stack := none, url := none, line := none, lineNumber := none, column := none }

/-- Constructor options of `LogLocation`. -/
structure Options where
  url : Option String
  line : Option String
  offset : Option Int
deriving Repr

/-- The no-options default (`new LogLocation()` path). -/
def noOptions : Options := { url := none, line := none, offset := none }

/-- The resolved location record: `stack` (frame strings after stripping the
internal frames), `url`, `path`, `file`, `line`, `col` and the rendered
`"(file:line:col)"` string (`str`, aliased by `loc` in the source). -/
structure Resolved where
  stack : List String
  url : String
  path : String
  file : String
  line : String
  col : String
  str : String
deriving DecidableEq, Repr

/-- Source `baseIndex`. -/
def baseIndex : Int := 4

/-- Source `getStack(e, offset)`: split the platform trace on newlines and
drop `baseIndex + offset` internal frames; if what remains is empty or
starts with a falsy entry, fall back to walking the caller chain.  The walk
pushes the name of `getStack` itself (extracted from its source text by the
regex) and then stops, because a plain function object has no `callee`
property, after which `index - 2` entries are sliced off. -/
def getStack (e : ErrObj) (offset : Option Int) : List String :=
  let index : Int := baseIndex + offset.getD 0
  let stackS := e.stack.getD ""
  let stackA := splitOnChar '\n' stackS
  let stackA := jsSlice stackA index
  if stackA.length ≠ 0 ∧ stackA.headD "" ≠ "" then stackA
  else jsSlice (stackA ++ ["getStack"]) (index - 2)

/-- Parse result of `locFromUrl`. -/
structure UrlLoc where
  line : Option String
  col : Option String
  file : Option String
  path : String
deriving Repr

/-- Source `locFromUrl(url)`: split on `/`, pop the last segment, strip one
`)` and one `(` from it, and split the remainder on `:` into
file / line / column. -/
def locFromUrl (url : String) : UrlLoc :=
  let parts := splitOnChar '/' url
  let loc := replaceFirst (replaceFirst (parts.getLastD "") ')' "") '(' ""
  let path := String.intercalate "/" parts.dropLast
  let locL := splitOnChar ':' loc
  { line := locL.get? 1, col := locL.get? 2, file := locL.get? 0, path := path }

/-- Source `LogLocation` constructor plus `init(e, offset)`: resolves every
field with JS `||` fallback chains; `url`, `file` and `line` default to the
`"?"` sentinel, `col` to the empty string, and the rendered form is
`"(" + file + ":" + line + ":" + col + ")"`.  The embedding is total: the
construction never throws. -/
def mk (options : Options) (e : ErrObj) : Resolved :=
  let stack := getStack e options.offset
  let url := jsOrStr (jsOrS options.url (jsOrS e.url stack.head?)) "?"
  let loc := locFromUrl url
  let file := jsOrStr loc.file "?"
  let line := jsOrStr (jsOrS options.line (jsOrS loc.line (jsOrS e.line e.lineNumber))) "?"
  let col := (jsOrS loc.col e.column).getD ""
  let str := "(" ++ String.intercalate ":" [file, line, col] ++ ")"
  { stack := stack, url := url, path := loc.path, file := file,
    line := line, col := col, str := str }

end LogLocation

/-- Renders a scaled integer `m` (the value at `d` decimal places times
`10 ^ d`) with exactly `d` fractional digits. -/
def toFixedInt (d : Nat) (m : Int) : String :=
  let sign := if m < 0 then "-" else ""
  let a := m.natAbs
  let ip := a / 10 ^ d
  let fp := a % 10 ^ d
  let fpStr := toString fp
  let pad := String.mk (List.replicate (d - fpStr.length) '0')
  if d = 0 then sign ++ toString ip else sign ++ toString ip ++ "." ++ pad ++ fpStr

/-- JS `Number.prototype.toFixed(d)` modelled on rationals: round half away
from zero at `d` decimal places and render via `toFixedInt`. -/
def toFixed (d : Nat) (q : ℚ) : String :=
  toFixedInt d ⌊q * (10 : ℚ) ^ d + 1 / 2⌋

namespace Profiler

/-- One recorded sample: the `{name, time}` object pushed onto `results`. -/
structure PResult where
  name : String
  time : ℚ
deriving DecidableEq, Repr

/-- `Profiler.groups`: the class-level group registry, a JS object mapping
group names to booleans, in property insertion order. -/
abbrev Groups := List (String × Bool)

/-- Instance state of a `Profiler`. -/
structure PState where
  startTime : ℚ
  stopTime : ℚ
  running : Bool
  currentName : String
  prevName : String
  initName : String
  _group : String
  _active : Bool
  results : List PResult
deriving DecidableEq, Repr

/-- The value of the source `active()` getter:
`this._active && Profiler.groups[this._group]` (an undefined group entry is
falsy). -/
def activeRead (groups : Groups) (st : PState) : Bool :=
  st._active && ((List.lookup st._group groups).getD false)

/-- Whether a `JSVal` is a string (JS `typeof v == "string"`). -/
def isStr : JSVal → Bool
  | .str _ => true
  | _ => false

/-- Source `group(overide)`: a defined argument first force-declares the
(stringified) key in `Profiler.groups` as `true` when absent, then throws if
the argument is not a string; otherwise `this._group` is assigned.  Returns
the new registry, state and the returned `this._group`. -/
def group (overide : JSVal) (groups : Groups) (st : PState) :
    Except String (Groups × PState × String) :=
  if overide ≠ .undef then
    let k := jsToString overide
    let groups := if (List.lookup k groups).isNone then groups ++ [(k, true)] else groups
    if ¬ isStr overide then
      .error "Profiler.group must be a global variable as a string."
    else if (List.lookup k groups).isNone then
      .error "Profiler.group: Missing a predefined global variable."
    else
      .ok (groups, { st with _group := k }, k)
  else
    .ok (groups, st, st._group)

/-- Source `active(overide)`: a defined non-boolean argument throws,
a boolean argument assigns `this._active`; the effective activity
`this._active && Profiler.groups[this._group]` is returned. -/
def active (overide : JSVal) (groups : Groups) (st : PState) :
    Except String (PState × Bool) :=
  if overide ≠ .undef then
    match overide with
    | .bool b =>
      let st := { st with _active := b }
      .ok (st, activeRead groups st)
    | _ => .error "Profiler.active must be a boolean value."
  else
    .ok (st, activeRead groups st)

/-- Source `currentTime()`: pops the next reading from the explicit clock. -/
def currentTime : List ℚ → ℚ × List ℚ
  | [] => (0, [])
  | t :: ts => (t, ts)

/-- A munged row name in `printResults`: generic (`function…`,
`Unnamed timer…`) and repeated names are blanked, surviving names get a
leading space. -/
def mungeName (name prevName : String) : String :=
  let n :=
    if name ≠ "" ∧ startsWith0 name "function" then ""
    else if name ≠ "" ∧ startsWith0 name "Unnamed timer" then ""
    else if name = prevName then ""
    else name
  if n ≠ "" then " " ++ n else n

/-- One report row: milliseconds and seconds rendered at 2 and 6 decimal
places. -/
structure Row where
  ms : String
  s : String
deriving DecidableEq, Repr

/-- JS object property write `rows[k] = v`: overwrite in place if the key
exists, else append. -/
def objInsert (rows : List (String × Row)) (k : String) (v : Row) :
    List (String × Row) :=
  if (List.lookup k rows).isSome then
    rows.map (fun kv => if kv.1 = k then (k, v) else kv)
  else rows ++ [(k, v)]

/-- Accumulator of the `printResults` result loop. -/
structure RowsAcc where
  rows : List (String × Row)
  prevName : String
  secTotal : ℚ
  msTotal : ℚ
  count : Nat

/-- One iteration of the `printResults` loop over `this.results`. -/
def rowsStep (acc : RowsAcc) (i : Nat) (result : PResult) : RowsAcc :=
  let name := mungeName result.name acc.prevName
  { rows := objInsert acc.rows (toString i ++ name)
      ⟨toFixed 2 result.time, toFixed 6 (result.time / 1000)⟩,
    prevName := name,
    secTotal := acc.secTotal + result.time / 1000,
    msTotal := acc.msTotal + result.time,
    count := acc.count + 1 }

/-- The rows computed by source `printResults` (per-sample rows plus the
`total` and `avrg` rows), together with the final `this.prevName`. -/
def printResultsRows (prevName0 : String) (results : List PResult) :
    List (String × Row) × String :=
  let acc := results.enum.foldl (fun acc ir => rowsStep acc ir.1 ir.2)
    ⟨[], prevName0, 0, 0, 0⟩
  let rows := objInsert acc.rows "total"
    ⟨toFixed 2 acc.msTotal, toFixed 6 acc.secTotal⟩
  let rows := objInsert rows "avrg"
    ⟨toFixed 2 (acc.msTotal / (acc.count : ℚ)), toFixed 6 (acc.secTotal / (acc.count : ℚ))⟩
  (rows, acc.prevName)

/-- State effect of source `printResults(name)`: updates `currentName`
(JS `name || this.currentName`) and leaves `prevName` at the last munged
row name; the rendered rows go to the console sink. -/
def printResults (name : Option String) (st : PState) : PState :=
  let st := { st with currentName := jsOrStr name st.currentName }
  let res := printResultsRows st.prevName st.results
  { st with prevName := res.2 }

/-- Source `getElapsedMilliseconds()`: refreshes `stopTime` from the clock
while running, and returns `stopTime - startTime`. -/
def getElapsedMilliseconds (s : PState × List ℚ) : ℚ × PState × List ℚ :=
  let (st, clk) := s
  if st.running then
    let (t, clk) := currentTime clk
    (t - st.startTime, { st with stopTime := t }, clk)
  else (st.stopTime - st.startTime, st, clk)

/-- State effect of source `printElapsed(name)`. -/
def printElapsed (name : Option String) (s : PState × List ℚ) :
    PState × List ℚ :=
  let (st, clk) := s
  let st := { st with currentName := jsOrStr name st.currentName }
  let r := getElapsedMilliseconds (st, clk)
  (r.2.1, r.2.2)

/-- Source `stop(print)`: reads the clock into `stopTime`, clears `running`,
and only when effectively active appends `{name: currentName, time:
stopTime - startTime}` to `results` and optionally prints. -/
def stop (groups : Groups) (print : Option String) (s : PState × List ℚ) :
    PState × List ℚ :=
  let (st, clk) := s
  let (t, clk) := currentTime clk
  let st := { st with stopTime := t, running := false }
  if activeRead groups st then
    let st := { st with
      results := st.results ++ [⟨st.currentName, st.stopTime - st.startTime⟩],
      stopTime := t }
    if print = some "elapsed" then printElapsed none (st, clk)
    else if truthy (match print with | some p => .str p | none => .undef) then
      (printResults none st, clk)
    else (st, clk)
  else (st, clk)

/-- Source `start(name)`: a no-op when not effectively active; otherwise an
implicit `stop()` closes any running segment, then `currentName` is updated
(JS `name || this.currentName`), `startTime` is read from the clock and
`running` is set. -/
def start (groups : Groups) (name : Option String) (s : PState × List ℚ) :
    PState × List ℚ :=
  let (st, clk) := s
  if ¬ activeRead groups st then (st, clk)
  else
    let (st, clk) := if st.running then stop groups none (st, clk) else (st, clk)
    let (t, clk) := currentTime clk
    ({ st with currentName := jsOrStr name st.currentName,
               startTime := t, running := true }, clk)

/-- The callable handed to the caller: in decorator mode either the timing
wrapper created by `decorate` (which carries the `profiler` property) or,
when inactive at construction, the unmodified original callable; in
stopwatch mode the instance itself. -/
inductive InitResult where
  | selfRef : InitResult
  | original : InitResult
  | wrapper : InitResult
deriving DecidableEq, Repr

/-- A JS callable as consulted by `_initPrototype`: its `name`,
`prototype.name` and source text. -/
structure Callable where
  name : String
  protoName : Option String
  src : String
deriving Repr

/-- Source `_initPrototype(objectToTime)`: derives a fallback `currentName`,
prefixes generic `function…` names with `unnamed `, and in decorator mode
returns the `decorate` wrapper when effectively active or the original
callable otherwise; finally `prevName` and `initName` snapshot
`currentName`. -/
def _initPrototype (objectToTime : Option Callable) (groups : Groups)
    (st : PState) : InitResult × PState :=
  let cn0 : String :=
    if st.currentName = "" then
      match objectToTime with
      | some f =>
        if f.name ≠ "" then f.name
        else match f.protoName with
          | some p =>
            if p ≠ "" then p else (splitOnChar '\x7b' (f.src.take 40)).headD ""
          | none => (splitOnChar '\x7b' (f.src.take 40)).headD ""
      | none => "Unnamed timer"
    else st.currentName
  let cn := if startsWith0 cn0 "function" then "unnamed " ++ cn0 else cn0
  let st := { st with currentName := cn }
  let ret :=
    match objectToTime with
    | some _ => if activeRead groups st then InitResult.wrapper else InitResult.original
    | none => InitResult.selfRef
  let st := { st with prevName := cn, initName := cn }
  (ret, st)

/-- Invoking the value `_initPrototype` returned: the `decorate` wrapper
runs `start()`, delegates, then `stop('results')`; the unmodified original
callable and the stopwatch instance leave the profiler state and clock
untouched. -/
def callReturned (r : InitResult) (groups : Groups) (s : PState × List ℚ) :
    PState × List ℚ :=
  match r with
  | .wrapper => stop groups (some "results") (start groups none s)
  | _ => s

end Profiler

/-!
Concrete scenarios used by the closed theorems and witnesses below.
-/

/-- A Debugger facade over one object (key `"a"`, ref `0`) before `init`,
with the global flag still at its `false` default and no view. -/
def c1st0 : Debugger.State :=
  { globalDebug := .bool false, view := false, objects := [("a", 0)],
    debugFlags := fun _ => false, debugEntries := fun _ _ => .noop }

/-- The facade after `new Debugger({a: objA}, true)` ran `init(true)`. -/
def c1st1 : Debugger.State := Debugger.init c1st0 true

/-- The same facade after a subsequent `global(true)` call. -/
def c1st2 : Debugger.State :=
  { c1st1 with globalDebug := (Debugger.global (.bool true) c1st1.globalDebug).1 }

/-- Group registry with the reserved `global` entry switched off and a
custom group `g1` on. -/
def c2groups : Profiler.Groups := [("global", false), ("g1", true)]

/-- A running, instance-active ProfilerInstance that belongs to the custom
group `g1`. -/
def c2st : Profiler.PState :=
  { startTime := 0, stopTime := 0, running := true, currentName := "f",
    prevName := "f", initName := "f", _group := "g1", _active := true,
    results := [] }

/-- An idle, effectively active stopwatch instance in the default group. -/
def idleSt : Profiler.PState :=
  { startTime := 0, stopTime := 0, running := false, currentName := "seg",
    prevName := "seg", initName := "seg", _group := "global", _active := true,
    results := [] }

/-- A group registry in its initial `{global: true}` shape. -/
def onGroups : Profiler.Groups := [("global", true)]

/-- A Debugger facade with two registered keys, both flags on. -/
def c7st : Debugger.State :=
  { globalDebug := .bool true, view := false,
    objects := [("model", 0), ("view", 1)],
    debugFlags := fun _ => true, debugEntries := fun _ _ => .noop }

/-- A Debugger facade with a single registered key `"a"`, flag on. -/
def c9st : Debugger.State :=
  { globalDebug := .bool true, view := false, objects := [("a", 0)],
    debugFlags := fun _ => true, debugEntries := fun _ _ => .noop }

/-- A named callable for the decorator-mode scenarios. -/
def c10fn : Profiler.Callable :=
  { name := "fa", protoName := none, src := "function fa() \x7b \x7d" }

/-- The three recorded samples of the aggregate-report scenario. -/
def c8results : List Profiler.PResult :=
  [⟨"Unnamed timer", 10⟩, ⟨"Unnamed timer", 20⟩, ⟨"Unnamed timer", 30⟩]

/-!
Helper lemmas shared by the claim theorems.
-/

/-- Looking a key up in a `state()` snapshot looks it up among the
registered objects and renders its flag. -/
theorem lookup_stateFn (st : Debugger.State) (k : String) :
    List.lookup k (Debugger.stateFn st) =
      (List.lookup k st.objects).map
        (fun n => if st.debugFlags n then "on" else "off") := by
  show List.lookup k
    (st.objects.map fun kv => (kv.1, if st.debugFlags kv.2 then "on" else "off")) = _
  generalize st.objects = l
  induction l with
  | nil => rfl
  | cons hd tl ih =>
    obtain ⟨k', v⟩ := hd
    by_cases h : k = k'
    · have hb : (k == k') = true := by simp [h]
      simp [List.lookup, hb]
    · have hb : (k == k') = false := by simp [h]
      simp [List.lookup, hb, ih]

/-- A successful association-list lookup exhibits a member pair. -/
theorem mem_of_lookup {β : Type} (l : List (String × β)) (k : String) (v : β)
    (h : List.lookup k l = some v) : (k, v) ∈ l := by
  induction l with
  | nil => simp [List.lookup] at h
  | cons hd tl ih =>
    obtain ⟨k', v'⟩ := hd
    by_cases hk : k = k'
    · subst hk
      have hb : (k == k) = true := by simp
      simp [List.lookup, hb] at h
      simp [h]
    · have hb : (k == k') = false := by simp [hk]
      simp [List.lookup, hb] at h
      exact List.mem_cons_of_mem _ (ih h)

/-- Appending a fresh key to a registry makes it found with its new value. -/
theorem lookup_append_fresh (l : Profiler.Groups) (s : String) (b : Bool)
    (h : List.lookup s l = none) : List.lookup s (l ++ [(s, b)]) = some b := by
  induction l with
  | nil => simp [List.lookup]
  | cons hd tl ih =>
    obtain ⟨k', v'⟩ := hd
    by_cases hk : s = k'
    · subst hk
      have hb : (s == s) = true := by simp
      simp [List.lookup, hb] at h
    · have hb : (s == k') = false := by simp [hk]
      simp only [List.lookup, hb, List.cons_append] at h ⊢
      exact ih h

/-- Rendering 10 ms at 2 decimals. -/
theorem toFixed_ms_10 : toFixed 2 (10:ℚ) = "10.00" := by
  show toFixedInt 2 ⌊(10:ℚ) * (10:ℚ) ^ (2:ℕ) + 1/2⌋ = "10.00"
  rw [show ⌊(10:ℚ) * (10:ℚ) ^ (2:ℕ) + 1/2⌋ = (1000:ℤ) from by norm_num]
  decide

/-- Rendering 20 ms at 2 decimals. -/
theorem toFixed_ms_20 : toFixed 2 (20:ℚ) = "20.00" := by
  show toFixedInt 2 ⌊(20:ℚ) * (10:ℚ) ^ (2:ℕ) + 1/2⌋ = "20.00"
  rw [show ⌊(20:ℚ) * (10:ℚ) ^ (2:ℕ) + 1/2⌋ = (2000:ℤ) from by norm_num]
  decide

/-- Rendering 30 ms at 2 decimals. -/
theorem toFixed_ms_30 : toFixed 2 (30:ℚ) = "30.00" := by
  show toFixedInt 2 ⌊(30:ℚ) * (10:ℚ) ^ (2:ℕ) + 1/2⌋ = "30.00"
  rw [show ⌊(30:ℚ) * (10:ℚ) ^ (2:ℕ) + 1/2⌋ = (3000:ℤ) from by norm_num]
  decide

/-- Rendering 10 ms as seconds at 6 decimals. -/
theorem toFixed_s_10 : toFixed 6 ((10:ℚ)/1000) = "0.010000" := by
  show toFixedInt 6 ⌊(10:ℚ)/1000 * (10:ℚ) ^ (6:ℕ) + 1/2⌋ = "0.010000"
  rw [show ⌊(10:ℚ)/1000 * (10:ℚ) ^ (6:ℕ) + 1/2⌋ = (10000:ℤ) from by norm_num]
  decide

/-- Rendering 20 ms as seconds at 6 decimals. -/
theorem toFixed_s_20 : toFixed 6 ((20:ℚ)/1000) = "0.020000" := by
  show toFixedInt 6 ⌊(20:ℚ)/1000 * (10:ℚ) ^ (6:ℕ) + 1/2⌋ = "0.020000"
  rw [show ⌊(20:ℚ)/1000 * (10:ℚ) ^ (6:ℕ) + 1/2⌋ = (20000:ℤ) from by norm_num]
  decide

/-- Rendering 30 ms as seconds at 6 decimals. -/
theorem toFixed_s_30 : toFixed 6 ((30:ℚ)/1000) = "0.030000" := by
  show toFixedInt 6 ⌊(30:ℚ)/1000 * (10:ℚ) ^ (6:ℕ) + 1/2⌋ = "0.030000"
  rw [show ⌊(30:ℚ)/1000 * (10:ℚ) ^ (6:ℕ) + 1/2⌋ = (30000:ℤ) from by norm_num]
  decide

/-- Rendering the accumulated millisecond total at 2 decimals. -/
theorem toFixed_ms_total : toFixed 2 ((0:ℚ) + 10 + 20 + 30) = "60.00" := by
  show toFixedInt 2 ⌊((0:ℚ) + 10 + 20 + 30) * (10:ℚ) ^ (2:ℕ) + 1/2⌋ = "60.00"
  rw [show ⌊((0:ℚ) + 10 + 20 + 30) * (10:ℚ) ^ (2:ℕ) + 1/2⌋ = (6000:ℤ) from by norm_num]
  decide

/-- Rendering the accumulated second total at 6 decimals. -/
theorem toFixed_s_total :
    toFixed 6 ((0:ℚ) + 10/1000 + 20/1000 + 30/1000) = "0.060000" := by
  show toFixedInt 6 ⌊((0:ℚ) + 10/1000 + 20/1000 + 30/1000) * (10:ℚ) ^ (6:ℕ) + 1/2⌋
    = "0.060000"
  rw [show ⌊((0:ℚ) + 10/1000 + 20/1000 + 30/1000) * (10:ℚ) ^ (6:ℕ) + 1/2⌋
    = (60000:ℤ) from by norm_num]
  decide

/-- Rendering the millisecond average at 2 decimals. -/
theorem toFixed_ms_avrg :
    toFixed 2 (((0:ℚ) + 10 + 20 + 30) / ((3:ℕ):ℚ)) = "20.00" := by
  show toFixedInt 2 ⌊((0:ℚ) + 10 + 20 + 30) / ((3:ℕ):ℚ) * (10:ℚ) ^ (2:ℕ) + 1/2⌋
    = "20.00"
  rw [show ⌊((0:ℚ) + 10 + 20 + 30) / ((3:ℕ):ℚ) * (10:ℚ) ^ (2:ℕ) + 1/2⌋
    = (2000:ℤ) from by norm_num]
  decide

/-- Rendering the second average at 6 decimals. -/
theorem toFixed_s_avrg :
    toFixed 6 (((0:ℚ) + 10/1000 + 20/1000 + 30/1000) / ((3:ℕ):ℚ)) = "0.020000" := by
  show toFixedInt 6
    ⌊((0:ℚ) + 10/1000 + 20/1000 + 30/1000) / ((3:ℕ):ℚ) * (10:ℚ) ^ (6:ℕ) + 1/2⌋
    = "0.020000"
  rw [show ⌊((0:ℚ) + 10/1000 + 20/1000 + 30/1000) / ((3:ℕ):ℚ) * (10:ℚ) ^ (6:ℕ) + 1/2⌋
    = (20000:ℤ) from by norm_num]
  decide

/-- The report rows for the `[10, 20, 30]` scenario, with every cell still
in its symbolic `toFixed` form exactly as `printResultsRows` builds it. -/
theorem printResultsRows_c8_symbolic :
    Profiler.printResultsRows "Unnamed timer" c8results =
    ([("0", ⟨toFixed 2 (10:ℚ), toFixed 6 ((10:ℚ)/1000)⟩),
      ("1", ⟨toFixed 2 (20:ℚ), toFixed 6 ((20:ℚ)/1000)⟩),
      ("2", ⟨toFixed 2 (30:ℚ), toFixed 6 ((30:ℚ)/1000)⟩),
      ("total", ⟨toFixed 2 ((0:ℚ) + 10 + 20 + 30),
                 toFixed 6 ((0:ℚ) + 10/1000 + 20/1000 + 30/1000)⟩),
      ("avrg", ⟨toFixed 2 (((0:ℚ) + 10 + 20 + 30) / ((3:ℕ):ℚ)),
                toFixed 6 (((0:ℚ) + 10/1000 + 20/1000 + 30/1000) / ((3:ℕ):ℚ))⟩)],
     "") := by
  rfl

/-- Claim C1 (code bug): the gate `!globalDebug || !this._debug` is
evaluated only once, when `init` synthesizes `obj.debug`, so the synthesized
entry is a frozen closure.  In the scenario below the facade is registered
with state `true` while the global flag is `false`; a later `global(true)`
leaves both flags true at call time, yet the synthesized entry (and its
per-level sub-entries) is still the no-op and emits nothing — contradicting
the claim (and the source's own "enable debug output after loading"
example) that output occurs iff both flags are true at the time of the
call. -/
theorem c1_gating_frozen_at_registration :
    truthy c1st2.globalDebug = true ∧ c1st2.debugFlags 0 = true ∧
    Debugger.emits (c1st2.debugEntries 0 none) = false ∧
    Debugger.emits (c1st2.debugEntries 0 (some "warn")) = false := by
  decide

/-- Claim C2 (code bug): `active()` consults only the instance override and
the instance's own group flag, never the reserved `global` entry.  With
`Profiler.groups.global = false` but custom group `g1` true, an
instance-active member of `g1` is still effectively active and its `stop`
appends a sample — contradicting the claim (and the source's own "setting
global = off will disable all custom groups as well" documentation). -/
theorem c2_custom_group_ignores_global :
    List.lookup "global" c2groups = some false ∧
    Profiler.activeRead c2groups c2st = true ∧
    (Profiler.stop c2groups none (c2st, [5])).1.results = [⟨"f", 5⟩] := by
  refine ⟨by decide, by decide, ?_⟩
  simp [Profiler.stop, Profiler.activeRead, Profiler.currentTime, c2st, c2groups,
    truthy, List.lookup]

/-- Claim C3: `global(state)` with a truthy argument writes the process-wide
flag (to that truthy value); with a falsy argument — in particular `false`
— it performs no write and returns the current flag, i.e. `global(false)`
is a read. -/
theorem c3_global_truthy_write_falsy_read : ∀ (g v : JSVal),
    (truthy v = true → Debugger.global v g = (v, none)) ∧
    (truthy v = false → Debugger.global v g = (g, some g)) := by
  intro g v
  constructor <;> intro h <;> simp [Debugger.global, h]

/-- Witness for C3 at concrete inputs: `global(true)` writes the flag,
`global(false)` leaves the flag `true` and returns it. -/
theorem c3_global_witness :
    Debugger.global (.bool true) (.bool false) = (.bool true, none) ∧
    Debugger.global (.bool false) (.bool true) = (.bool true, some (.bool true)) :=
  ⟨(c3_global_truthy_write_falsy_read (.bool false) (.bool true)).1 (by decide),
   (c3_global_truthy_write_falsy_read (.bool true) (.bool false)).2 (by decide)⟩

/-- Claim C4: on an effectively active, idle ProfilerInstance with a
monotone clock, `start()` then `stop()` appends exactly one sample with
elapsed time `t2 - t1 ≥ 0`; and `start()` twice in a row appends exactly
one sample for the auto-closed first segment before the second one begins
(`running` true again, `startTime` at the third clock reading). -/
theorem c4_start_stop_single_sample (groups : Profiler.Groups)
    (st : Profiler.PState) (clk : List ℚ) (t1 t2 t3 : ℚ)
    (ha : Profiler.activeRead groups st = true)
    (hr : st.running = false) (hm : t1 ≤ t2) :
    ((Profiler.stop groups none
        (Profiler.start groups none (st, t1 :: t2 :: clk))).1.results
        = st.results ++ [⟨st.currentName, t2 - t1⟩] ∧
      0 ≤ t2 - t1) ∧
    ((Profiler.start groups none
        (Profiler.start groups none (st, t1 :: t2 :: t3 :: clk))).1.results
        = st.results ++ [⟨st.currentName, t2 - t1⟩] ∧
      (Profiler.start groups none
        (Profiler.start groups none (st, t1 :: t2 :: t3 :: clk))).1.running = true) := by
  have ha' := ha
  simp [Profiler.activeRead] at ha'
  refine ⟨⟨?_, sub_nonneg.mpr hm⟩, ?_, ?_⟩ <;>
    simp [Profiler.start, Profiler.stop, Profiler.activeRead, Profiler.currentTime,
      jsOrStr, hr, ha'.1, ha'.2, truthy]

/-- Witness for C4 on a concrete idle active stopwatch and clock readings
1, 2, 4. -/
theorem c4_start_stop_witness :
    Profiler.activeRead onGroups idleSt = true ∧
    ((Profiler.stop onGroups none
        (Profiler.start onGroups none (idleSt, [1, 2]))).1.results
        = idleSt.results ++ [⟨idleSt.currentName, 2 - 1⟩] ∧
      (0:ℚ) ≤ 2 - 1) ∧
    ((Profiler.start onGroups none
        (Profiler.start onGroups none (idleSt, [1, 2, 4]))).1.results
        = idleSt.results ++ [⟨idleSt.currentName, 2 - 1⟩] ∧
      (Profiler.start onGroups none
        (Profiler.start onGroups none (idleSt, [1, 2, 4]))).1.running = true) := by
  refine ⟨by decide, ?_⟩
  exact c4_start_stop_single_sample onGroups idleSt [] 1 2 4
    (by decide) (by decide) (by norm_num)

/-- Counterexample to claim C5 as stated: on an empty platform trace the
resolved record's `column` field is the empty string, not the `"?"`
sentinel (the source's fallback chain for `col` ends in `""`). -/
theorem c5_column_not_question_mark :
    (LogLocation.mk LogLocation.noOptions LogLocation.emptyErr).col ≠ "?" := by
  decide

/-- Claim C5 as amended: when the stack-trace mechanism yields an empty
trace (no `stack`, `url`, `line`, `lineNumber` or `column` on the error),
construction still completes (the embedding is total, modelling that the
source path throws nothing) and yields `"?"` for `url`, `file` and `line`,
but the empty string for `col` and the empty list for `stack`, rendering
as `"(?:?:)"`. -/
theorem c5_empty_trace_resolved_record :
    LogLocation.mk LogLocation.noOptions LogLocation.emptyErr =
      { stack := [], url := "?", path := "", file := "?", line := "?",
        col := "", str := "(?:?:)" } := by
  decide

/-- Claim C6: setting the group override to a defined non-string throws;
setting `active` to a defined non-boolean throws; setting the group to an
unknown string name does not throw and auto-declares that group as `true`
in the registry while assigning `this._group`. -/
theorem c6_group_active_validation :
    (∀ (v : JSVal) (groups : Profiler.Groups) (st : Profiler.PState),
      v ≠ .undef → Profiler.isStr v = false →
      Profiler.group v groups st =
        .error "Profiler.group must be a global variable as a string.") ∧
    (∀ (v : JSVal) (groups : Profiler.Groups) (st : Profiler.PState),
      v ≠ .undef → (∀ b, v ≠ .bool b) →
      Profiler.active v groups st =
        .error "Profiler.active must be a boolean value.") ∧
    (∀ (s : String) (groups : Profiler.Groups) (st : Profiler.PState),
      List.lookup s groups = none →
      Profiler.group (.str s) groups st =
        .ok (groups ++ [(s, true)], { st with _group := s }, s)) := by
  refine ⟨?_, ?_, ?_⟩
  · intro v groups st hv hstr
    simp [Profiler.group, hv, hstr]
  · intro v groups st hv hb
    cases v with
    | undef => exact absurd rfl hv
    | bool b => exact absurd rfl (hb b)
    | str s => simp [Profiler.active]
  · intro s groups st hmiss
    have hfresh := lookup_append_fresh groups s true hmiss
    simp [Profiler.group, Profiler.isStr, jsToString, hmiss, hfresh]

/-- Witness for C6: a boolean group override throws, a string `active`
override throws, and the unknown group `"newGroup"` is auto-declared. -/
theorem c6_group_active_witness :
    Profiler.group (.bool true) onGroups c2st =
      .error "Profiler.group must be a global variable as a string." ∧
    Profiler.active (.str "yes") onGroups c2st =
      .error "Profiler.active must be a boolean value." ∧
    Profiler.group (.str "newGroup") onGroups c2st =
      .ok (onGroups ++ [("newGroup", true)],
           { c2st with _group := "newGroup" }, "newGroup") :=
  ⟨c6_group_active_validation.1 (.bool true) onGroups c2st (by decide) (by decide),
   c6_group_active_validation.2.1 (.str "yes") onGroups c2st (by decide)
     (fun b h => JSVal.noConfusion h),
   c6_group_active_validation.2.2 "newGroup" onGroups c2st (by decide)⟩

/-- Claim C7: `off(k)` on a registered nonempty key `k` flips only that
key's object flag to `false` and leaves every other object's flag as it
was; the returned `state()` snapshot maps `k` to `"off"` and every other
key to its previous value.  The injectivity hypothesis encodes the spec's
data-model invariant that each registration is a distinct object (one
`_debug` flag per registered object). -/
theorem c7_off_key_isolation (st : Debugger.State) (k : String) (r : Nat)
    (hk : k ≠ "") (hr : List.lookup k st.objects = some r)
    (hinj : ∀ k' r', (k', r') ∈ st.objects → k' ≠ k → r' ≠ r) :
    Debugger.off st (some k) =
      .ok ({ st with debugFlags := Debugger.writeFlag st.debugFlags r false },
           Debugger.stateFn
             { st with debugFlags := Debugger.writeFlag st.debugFlags r false }) ∧
    Debugger.writeFlag st.debugFlags r false r = false ∧
    (∀ r', r' ≠ r → Debugger.writeFlag st.debugFlags r false r' = st.debugFlags r') ∧
    List.lookup k (Debugger.stateFn
      { st with debugFlags := Debugger.writeFlag st.debugFlags r false }) = some "off" ∧
    (∀ k', k' ≠ k →
      List.lookup k' (Debugger.stateFn
        { st with debugFlags := Debugger.writeFlag st.debugFlags r false }) =
      List.lookup k' (Debugger.stateFn st)) := by
  refine ⟨?_, ?_, ?_, ?_, ?_⟩
  · simp [Debugger.off, Debugger.setState, truthy, hk, hr]
  · simp [Debugger.writeFlag]
  · intro r' hne
    simp [Debugger.writeFlag, hne]
  · rw [lookup_stateFn]
    simp [hr, Debugger.writeFlag]
  · intro k' hne
    rw [lookup_stateFn, lookup_stateFn]
    simp only
    cases hl : List.lookup k' st.objects with
    | none => simp [hl]
    | some r'' =>
      have hmem := mem_of_lookup st.objects k' r'' hl
      have hner : r'' ≠ r := hinj k' r'' hmem hne
      simp [hl, Debugger.writeFlag, hner]

/-- Witness for C7 on a facade with keys `model` and `view` both on:
`off("model")` reports `model ↦ "off"` and leaves `view` unchanged. -/
theorem c7_off_key_witness :
    List.lookup "model" c7st.objects = some 0 ∧
    Debugger.off c7st (some "model") =
      .ok ({ c7st with debugFlags := Debugger.writeFlag c7st.debugFlags 0 false },
           Debugger.stateFn
             { c7st with debugFlags := Debugger.writeFlag c7st.debugFlags 0 false }) ∧
    List.lookup "model" (Debugger.stateFn
      { c7st with debugFlags := Debugger.writeFlag c7st.debugFlags 0 false })
      = some "off" ∧
    List.lookup "view" (Debugger.stateFn
      { c7st with debugFlags := Debugger.writeFlag c7st.debugFlags 0 false }) =
      List.lookup "view" (Debugger.stateFn c7st) := by
  have h := c7_off_key_isolation c7st "model" 0 (by decide) (by decide)
    (by
      intro k' r' hmem hne
      simp [c7st] at hmem
      rcases hmem with ⟨h1, h2⟩ | ⟨h1, h2⟩
      · exact absurd h1 hne
      · simp [h2])
  exact ⟨by decide, h.1, h.2.2.2.1, h.2.2.2.2 "view" (by decide)⟩

/-- Claim C8: for recorded samples of 10, 20 and 30 ms, `printResults`
computes a `total` row of `60.00` ms and an `avrg` row of `20.00` ms, and
every row's seconds cell is its milliseconds value divided by 1000 at
6-decimal precision (milliseconds at 2 decimals); the final conjunct checks
that the accumulated seconds total is exactly the millisecond total over
1000. -/
theorem c8_aggregate_report :
    Profiler.printResultsRows "Unnamed timer" c8results =
      ([("0", ⟨"10.00", "0.010000"⟩), ("1", ⟨"20.00", "0.020000"⟩),
        ("2", ⟨"30.00", "0.030000"⟩), ("total", ⟨"60.00", "0.060000"⟩),
        ("avrg", ⟨"20.00", "0.020000"⟩)], "") ∧
    ((0:ℚ) + 10/1000 + 20/1000 + 30/1000) = ((0:ℚ) + 10 + 20 + 30) / 1000 := by
  refine ⟨?_, by norm_num⟩
  rw [printResultsRows_c8_symbolic]
  simp only [toFixed_ms_10, toFixed_ms_20, toFixed_ms_30, toFixed_s_10,
    toFixed_s_20, toFixed_s_30, toFixed_ms_total, toFixed_s_total,
    toFixed_ms_avrg, toFixed_s_avrg]

/-- Counterexample to claim C9 as stated: the empty string is a key that is
not registered, yet `setState(false, "")` does not throw — JS `if (key)` is
falsy on `""`, so the call falls into the all-objects branch, succeeds, and
flips every registered flag (here `a`'s flag from `true` to `false`). -/
theorem c9_empty_key_counterexample :
    List.lookup "" c9st.objects = none ∧ c9st.debugFlags 0 = true ∧
    (Debugger.setState c9st false (some "")).isOk = true ∧
    ((Debugger.setState c9st false (some "")).toOption.map
      (fun p => p.1.debugFlags 0) = some false) ∧
    ((Debugger.setState c9st false (some "")).toOption.map
      (fun p => p.2) = some [("a", "off")]) := by
  decide

/-- Claim C9 as amended: for every truthy (nonempty) key that is not
registered, `setState` — and hence `on`/`off` — throws the `TypeError`
before any assignment, so no flag changes (the error return carries no
updated state). -/
theorem c9_missing_key_throws (st : Debugger.State) (k : String) (state : Bool)
    (hk : k ≠ "") (hmiss : List.lookup k st.objects = none) :
    Debugger.setState st state (some k) =
      .error "TypeError: cannot set _debug of undefined" ∧
    Debugger.off st (some k) = .error "TypeError: cannot set _debug of undefined" ∧
    Debugger.onFn st (some k) =
      .error "TypeError: cannot set _debug of undefined" := by
  refine ⟨?_, ?_, ?_⟩ <;>
    simp [Debugger.setState, Debugger.off, Debugger.onFn, truthy, hk, hmiss]

/-- Witness for C9's amended theorem at the unregistered key `"missing"`. -/
theorem c9_missing_key_witness :
    List.lookup "missing" c9st.objects = none ∧
    Debugger.setState c9st true (some "missing") =
      .error "TypeError: cannot set _debug of undefined" ∧
    Debugger.off c9st (some "missing") =
      .error "TypeError: cannot set _debug of undefined" := by
  have h := c9_missing_key_throws c9st "missing" true (by decide) (by decide)
  exact ⟨by decide, h.1, h.2.1⟩

/-- Claim C10: when a decorator-mode ProfilerInstance is not effectively
active at construction (`_active` false or its group flag false/absent),
`_initPrototype` hands back the original callable itself — `decorate` never
runs, so no wrapper exists and no `profiler` property is attached — and
invoking that returned reference never alters profiler state (in
particular, never appends a sample) under any later group registry. -/
theorem c10_inactive_returns_original (f : Profiler.Callable)
    (groups : Profiler.Groups) (st : Profiler.PState)
    (h : Profiler.activeRead groups st = false) :
    (Profiler._initPrototype (some f) groups st).1 = .original ∧
    (∀ (groups' : Profiler.Groups) (s : Profiler.PState × List ℚ),
      Profiler.callReturned (Profiler._initPrototype (some f) groups st).1
        groups' s = s) := by
  have h1 : (Profiler._initPrototype (some f) groups st).1 = .original := by
    simp [Profiler.activeRead] at h
    simp [Profiler._initPrototype, Profiler.activeRead]
    exact h
  exact ⟨h1, by rw [h1]; intro groups' s; rfl⟩

/-- Witness for C10: an instance-inactive decorator returns the original
callable, and calling it under a fully re-enabled registry changes
nothing. -/
theorem c10_inactive_witness :
    Profiler.activeRead onGroups { idleSt with _active := false } = false ∧
    (Profiler._initPrototype (some c10fn) onGroups
      { idleSt with _active := false }).1 = .original ∧
    Profiler.callReturned
      (Profiler._initPrototype (some c10fn) onGroups
        { idleSt with _active := false }).1
      [("global", true), ("g1", true)] (c2st, [1, 2]) = (c2st, [1, 2]) := by
  refine ⟨by decide, ?_, ?_⟩
  · exact (c10_inactive_returns_original c10fn onGroups
      { idleSt with _active := false } (by decide)).1
  · exact (c10_inactive_returns_original c10fn onGroups
      { idleSt with _active := false } (by decide)).2
      [("global", true), ("g1", true)] (c2st, [1, 2])
